import Mathlib

/-!
Verification of the students-api CRUD service.

The development shallowly embeds the two layers the claims are about:

* the persistence layer (`internal/storage/sqlite/sqlite.go`): a single
  `students` table with `id INTEGER PRIMARY KEY AUTOINCREMENT`, modelled as a
  list of rows together with the next AUTOINCREMENT value (SQLite with the
  AUTOINCREMENT keyword never reuses ids, even after deletion);
* the HTTP handler layer (`internal/http/handlers/student/student.go`) with
  the validation rules of `internal/types` (`validate:"required"` on
  `Name`, `Email`, `Age`) and the JSON response envelope of
  `internal/utils/response/response.go`.

Machine integers (`int64` ids, `int` age) are modelled as `Int`; no claim
involves overflow.  Infrastructure faults (driver/prepare/scan failures) are
outside the pure model except where a claim is about the error-message
taxonomy, where the fault is passed in explicitly.
-/

namespace StudentsApi

/-- Record `types.Student` from `internal/types`: id, name, email, age. -/
structure Student where
  id : Int
  name : String
  email : String
  age : Int
deriving Repr, DecidableEq

/-- The SQLite store: the rows of the `students` table in rowid order,
plus the next AUTOINCREMENT id. -/
structure Store where
  rows : List Student
  nextId : Int
deriving Repr, DecidableEq

/-- A freshly created table: no rows, AUTOINCREMENT starts at 1. -/
def emptyStore : Store := ⟨[], 1⟩

/-- Function `CreateStudent` (sqlite.go): `INSERT INTO students (name, email, age)
VALUES (?, ?, ?)` followed by `LastInsertId`.  Returns the assigned id and
the new store. -/
def CreateStudent (s : Store) (name email : String) (age : Int) :
    Int × Store :=
  (s.nextId, ⟨s.rows ++ [⟨s.nextId, name, email, age⟩], s.nextId + 1⟩)

/-- The error message built by `GetStudentByID` when `Scan` reports
`sql.ErrNoRows`: `fmt.Errorf("no student found with id: %d", id)`. -/
def noStudentMsg (id : Int) : String :=
  "no student found with id: " ++ toString id

/-- Function `GetStudentByID` (sqlite.go): `SELECT id, name, email, age FROM students
WHERE id = ? LIMIT 1`; `sql.ErrNoRows` becomes the "no student found" error. -/
def GetStudentByID (s : Store) (id : Int) : Except String Student :=
  match s.rows.find? (fun r => r.id = id) with
  | some r => .ok r
  | none => .error (noStudentMsg id)

/-- Function `GetStudentByID` with the driver-level faults of the two fallible calls
made explicit.  `prepareFault = some e` models `Prepare` failing with driver
error text `e`; `scanFault = some e` models `Scan` failing with a driver
error `e` other than `sql.ErrNoRows`.  The code wraps these as
`"GetStudentByID: prepare: %w"` and `"GetStudentByID: scan: %w"`, while the
`sql.ErrNoRows` case gets the distinct "no student found" message. -/
def GetStudentByIDFull (s : Store) (id : Int)
    (prepareFault scanFault : Option String) : Except String Student :=
  match prepareFault with
  | some e => .error ("GetStudentByID: prepare: " ++ e)
  | none =>
    match scanFault with
    | some e => .error ("GetStudentByID: scan: " ++ e)
    | none => GetStudentByID s id

/-- Function `GetStudents` (sqlite.go): `SELECT id, name, email, age FROM students`,
scanned row by row into a slice pre-allocated with `make([]Student, 0)`.
A Go slice is nil-able, so the result type is `Option (List Student)` with
`none` standing for a nil slice; this code always starts from the non-nil
empty slice. -/
def GetStudents (s : Store) : Option (List Student) :=
  some (s.rows.foldl (fun acc r => acc ++ [r]) [])

/-- The row transformation performed by the `UPDATE` statement of
`UpdateStudentByID`: a row whose id matches the `WHERE id = ?` parameter
gets the new name/email/age; its id column is not in the `SET` list and is
untouched. -/
def updRow (id : Int) (st : Student) (r : Student) : Student :=
  if r.id = id then { r with name := st.name, email := st.email, age := st.age }
  else r

/-- Function `UpdateStudentByID` (sqlite.go): `UPDATE students SET name = ?, email = ?,
age = ? WHERE id = ?` (no existence check, zero rows affected is not an
error), then re-read the row with `GetStudentByID`. -/
def UpdateStudentByID (s : Store) (id : Int) (student : Student) :
    Except String Student × Store :=
  let s' : Store := ⟨s.rows.map (updRow id student), s.nextId⟩
  (GetStudentByID s' id, s')

/-- Function `DeleteStudentByID` (sqlite.go): `DELETE FROM students WHERE id = ?`;
the affected-row count is ignored, so the result is `ok` whether or not a
row matched. -/
def DeleteStudentByID (s : Store) (id : Int) : Except String Unit × Store :=
  (.ok (), ⟨s.rows.filter (fun r => r.id ≠ id), s.nextId⟩)

/-! ## HTTP layer: JSON values, the response envelope, validation, handlers -/

/-- A JSON value, the shape of every response body written by
`response.WriteJSON`. -/
inductive Json where
  | null
  | str (s : String)
  | num (n : Int)
  | arr (xs : List Json)
  | obj (fields : List (String × Json))
deriving Repr

/-- How `encoding/json` serialises a `types.Student` (the `json:"..."` tags
give lowercase keys). -/
def encodeStudent (st : Student) : Json :=
  .obj [("id", .num st.id), ("name", .str st.name),
        ("email", .str st.email), ("age", .num st.age)]

/-- How `encoding/json` serialises the `[]types.Student` slice returned by
`GetStudents`: a nil slice becomes `null`, a non-nil slice becomes an
array. -/
def encodeStudentSlice : Option (List Student) → Json
  | none => .null
  | some l => .arr (l.map encodeStudent)

/-- Helper `response.GeneralError` / the error envelope of
`internal/utils/response`: `{"status":"error","error":"<message>"}`. -/
def errorEnvelope (msg : String) : Json :=
  .obj [("status", .str "error"), ("error", .str msg)]

/-- An HTTP response: status code plus JSON body. -/
structure HttpResponse where
  status : Nat
  body : Json
deriving Repr

/-- The fields of `types.Student` that fail `validator.New().Struct`:
the `validate:"required"` tag on `Name`, `Email` and `Age` treats the Go
zero value ("" for strings, 0 for ints) as absent; `ID` has no tag.
Fields are checked in struct declaration order. -/
def failingFields (st : Student) : List String :=
  (if st.name = "" then ["Name"] else []) ++
  (if st.email = "" then ["Email"] else []) ++
  (if st.age = 0 then ["Age"] else [])

/-- Helper `response.ValidationError`: one "field X is required" sentence per
failing field, joined with ", ". -/
def validationMessage (fields : List String) : String :=
  String.intercalate ", " (fields.map (fun f => "field " ++ f ++ " is required"))

/-- The outcome of `json.NewDecoder(r.Body).Decode(&student)`: an empty body
(`io.EOF`), any other decode error with its message, or a decoded
`types.Student`.  A decoded body may carry an `id` field; `Decode` fills it
into `student.ID`. -/
inductive RequestBody where
  | empty
  | malformed (msg : String)
  | decoded (st : Student)
deriving Repr, DecidableEq

/-- The `New` handler (student.go, `POST /api/students`): decode, validate,
`CreateStudent(student.Name, student.Email, student.Age)`, respond
`201 {"id": lastID}`.  Returns the response and the store after the
request. -/
def handleNew (s : Store) (body : RequestBody) : HttpResponse × Store :=
  match body with
  | .empty => (⟨400, errorEnvelope "request body is empty"⟩, s)
  | .malformed msg => (⟨400, errorEnvelope msg⟩, s)
  | .decoded st =>
    if failingFields st ≠ [] then
      (⟨400, errorEnvelope (validationMessage (failingFields st))⟩, s)
    else
      let (lastID, s') := CreateStudent s st.name st.email st.age
      (⟨201, .obj [("id", .num lastID)]⟩, s')

/-- The `GetByID` handler (student.go, `GET /api/students/{id}`) after the
path id has parsed as an integer: any storage error — the not-found case
included — becomes a 500 with the raw error message in the envelope. -/
def handleGetByID (s : Store) (id : Int) : HttpResponse :=
  match GetStudentByID s id with
  | .ok st => ⟨200, encodeStudent st⟩
  | .error msg => ⟨500, errorEnvelope msg⟩

/-- The `GetList` handler (student.go, `GET /api/students`): the pure model
of `GetStudents` cannot fail, so the handler responds 200 with the encoded
slice. -/
def handleGetList (s : Store) : HttpResponse :=
  ⟨200, encodeStudentSlice (GetStudents s)⟩

/-- The `Update` handler (student.go, `PUT /api/students/{id}`) after the
path id has parsed: decode, validate with the same rules as creation, then
`UpdateStudentByID`; its error (including the not-found error from the
re-read) becomes a 500. -/
def handleUpdate (s : Store) (id : Int) (body : RequestBody) :
    HttpResponse × Store :=
  match body with
  | .empty => (⟨400, errorEnvelope "request body is empty"⟩, s)
  | .malformed msg => (⟨400, errorEnvelope msg⟩, s)
  | .decoded st =>
    if failingFields st ≠ [] then
      (⟨400, errorEnvelope (validationMessage (failingFields st))⟩, s)
    else
      let (res, s') := UpdateStudentByID s id st
      match res with
      | .ok updated => (⟨200, encodeStudent updated⟩, s')
      | .error msg => (⟨500, errorEnvelope msg⟩, s')

/-- The `Delete` handler (student.go, `DELETE /api/students/{id}`) after the
path id has parsed: `DeleteStudentByID` never errors in the pure model, so
the handler responds `200 {"status":"deleted"}`. -/
def handleDelete (s : Store) (id : Int) : HttpResponse × Store :=
  let (_, s') := DeleteStudentByID s id
  (⟨200, .obj [("status", .str "deleted")]⟩, s')

/-! ## Sequences of storage operations

To state the freshness claim about ids we run an arbitrary sequence of
storage-layer operations from the empty store, recording the id returned by
every `CreateStudent` call. -/

/-- One storage-layer operation. -/
inductive Op where
  | create (name email : String) (age : Int)
  | getById (id : Int)
  | list
  | update (id : Int) (st : Student)
  | delete (id : Int)
deriving Repr, DecidableEq

/-- Execute one operation on the store, extending the trace of ids returned
by `CreateStudent`.  Reads leave both unchanged. -/
def execOp : Store × List Int → Op → Store × List Int
  | (s, tr), .create n e a =>
    let (id, s') := CreateStudent s n e a
    (s', tr ++ [id])
  | (s, tr), .getById _ => (s, tr)
  | (s, tr), .list => (s, tr)
  | (s, tr), .update id st => ((UpdateStudentByID s id st).2, tr)
  | (s, tr), .delete id => ((DeleteStudentByID s id).2, tr)

/-- Run a sequence of operations from the empty store. -/
def runOps (ops : List Op) : Store × List Int :=
  ops.foldl execOp (emptyStore, [])

/-- The AUTOINCREMENT invariant: every stored id and every id ever returned
by `CreateStudent` is strictly below the next AUTOINCREMENT value. -/
def StoreBound (s : Store) (tr : List Int) : Prop :=
  (∀ r ∈ s.rows, r.id < s.nextId) ∧ (∀ i ∈ tr, i < s.nextId)

theorem storeBound_empty : StoreBound emptyStore [] := by
  constructor <;> intro x hx <;> simp [emptyStore] at hx

theorem storeBound_execOp (s : Store) (tr : List Int) (op : Op)
    (h : StoreBound s tr) :
    StoreBound (execOp (s, tr) op).1 (execOp (s, tr) op).2 := by
  obtain ⟨hrows, htr⟩ := h
  cases op with
  | create n e a =>
    constructor
    · intro r hr
      simp only [execOp, CreateStudent, List.mem_append, List.mem_singleton]
        at hr ⊢
      rcases hr with hr | hr
      · exact lt_trans (hrows r hr) (lt_add_one _)
      · subst hr; exact lt_add_one _
    · intro i hi
      simp only [execOp, CreateStudent, List.mem_append, List.mem_singleton]
        at hi ⊢
      rcases hi with hi | hi
      · exact lt_trans (htr i hi) (lt_add_one _)
      · subst hi; exact lt_add_one _
  | getById id => exact ⟨hrows, htr⟩
  | list => exact ⟨hrows, htr⟩
  | update id st =>
    constructor
    · intro r hr
      simp only [execOp, UpdateStudentByID, GetStudentByID, List.mem_map]
        at hr
      obtain ⟨r₀, hr₀, hmap⟩ := hr
      subst hmap
      have hnext : (execOp (s, tr) (Op.update id st)).1.nextId = s.nextId := rfl
      rw [hnext]
      by_cases hid : r₀.id = id <;> simpa [updRow, hid] using hrows r₀ hr₀
    · intro i hi
      exact htr i hi
  | delete id =>
    constructor
    · intro r hr
      simp only [execOp, DeleteStudentByID, List.mem_filter] at hr
      exact hrows r hr.1
    · intro i hi
      exact htr i hi

theorem storeBound_runOps (ops : List Op) :
    StoreBound (runOps ops).1 (runOps ops).2 := by
  rw [runOps]
  generalize hinit : (emptyStore, ([] : List Int)) = init
  have hbase : StoreBound init.1 init.2 := by
    rw [← hinit]; exact storeBound_empty
  clear hinit
  induction ops generalizing init with
  | nil => exact hbase
  | cons op rest ih =>
    simp only [List.foldl_cons]
    exact ih _ (by
      obtain ⟨s, tr⟩ := init
      exact storeBound_execOp s tr op hbase)

/-! ## Helper lemmas -/

theorem updRow_id (id : Int) (st r : Student) : (updRow id st r).id = r.id := by
  unfold updRow
  by_cases h : r.id = id <;> simp [h]

theorem updateStudentByID_rows (s : Store) (id : Int) (st : Student) :
    (UpdateStudentByID s id st).2.rows = s.rows.map (updRow id st) := rfl

theorem find?_updRow (rows : List Student) (id : Int) (st : Student) :
    (rows.map (updRow id st)).find? (fun r => r.id = id)
      = (rows.find? (fun r => r.id = id)).map (updRow id st) := by
  rw [List.find?_map]
  have hfun : ((fun r => decide (r.id = id)) ∘ updRow id st)
      = (fun r : Student => decide (r.id = id)) := by
    funext r
    simp [Function.comp, updRow_id]
  rw [hfun]

/-- When no stored row carries the id, the `SELECT ... WHERE id = ?` lookup
finds nothing. -/
theorem find?_none_of_no_id (rows : List Student) (id : Int)
    (h : ∀ r ∈ rows, r.id ≠ id) :
    rows.find? (fun r => r.id = id) = none := by
  rw [List.find?_eq_none]
  intro r hr
  simpa using h r hr

/-- When the lookup before the write finds a row, the value returned by
`UpdateStudentByID` is the re-read row: id from the row, fields from the
payload. -/
theorem updateStudentByID_found (s : Store) (id : Int) (st r : Student)
    (hr : s.rows.find? (fun r' => r'.id = id) = some r) :
    (UpdateStudentByID s id st).1 = .ok ⟨id, st.name, st.email, st.age⟩ := by
  have hid : r.id = id := by simpa using List.find?_some hr
  show GetStudentByID ⟨s.rows.map (updRow id st), s.nextId⟩ id = _
  rw [GetStudentByID]
  simp only [find?_updRow, hr, Option.map_some']
  simp [updRow, hid]

/-! ## Claim theorems -/

/-- C1: starting from the empty store, every `CreateStudent` returns an id
strictly greater than every id previously returned by `CreateStudent`, not
in use by any stored record, and an immediately following `GetStudentByID`
with that id returns the created record (input fields plus the assigned
id). -/
theorem create_returns_fresh_increasing_id (ops : List Op) (n e : String)
    (a : Int) (_hn : n ≠ "") (_he : e ≠ "") (_ha : a ≠ 0) :
    (∀ j ∈ (runOps ops).2, j < (CreateStudent (runOps ops).1 n e a).1) ∧
    (∀ r ∈ (runOps ops).1.rows,
      r.id ≠ (CreateStudent (runOps ops).1 n e a).1) ∧
    GetStudentByID (CreateStudent (runOps ops).1 n e a).2
        (CreateStudent (runOps ops).1 n e a).1
      = .ok ⟨(CreateStudent (runOps ops).1 n e a).1, n, e, a⟩ := by
  obtain ⟨hrows, htr⟩ := storeBound_runOps ops
  refine ⟨htr, fun r hr => ne_of_lt (hrows r hr), ?_⟩
  have hnone : (runOps ops).1.rows.find?
      (fun r => r.id = (runOps ops).1.nextId) = none :=
    find?_none_of_no_id _ _ (fun r hr => ne_of_lt (hrows r hr))
  simp [GetStudentByID, CreateStudent, List.find?_append, hnone, List.find?]

/-- Witness for C1: the concrete scenario of the spec on the empty store. -/
theorem create_returns_fresh_increasing_id_witness :
    GetStudentByID
        (CreateStudent (runOps []).1 "Rakesh" "rakesh@test.com" 35).2
        (CreateStudent (runOps []).1 "Rakesh" "rakesh@test.com" 35).1
      = .ok ⟨1, "Rakesh", "rakesh@test.com", 35⟩ :=
  (create_returns_fresh_increasing_id [] "Rakesh" "rakesh@test.com" 35
    (by decide) (by decide) (by decide)).2.2

/-- C2: updating an id with no matching record leaves the stored records
unchanged and returns the not-found error (the silent zero-rows-affected
`UPDATE` followed by the failing re-read); in every case the returned value
is the re-read of the row after the write, and when the lookup matches a
row the result carries the stored id and the written fields, not the
caller's input echoed back. -/
theorem update_nonexistent_errors_and_rereads (s : Store) (id : Int)
    (st : Student) :
    ((∀ r ∈ s.rows, r.id ≠ id) →
      (UpdateStudentByID s id st).2.rows = s.rows ∧
      (UpdateStudentByID s id st).1 = .error (noStudentMsg id)) ∧
    (UpdateStudentByID s id st).1
      = GetStudentByID (UpdateStudentByID s id st).2 id ∧
    (∀ r, s.rows.find? (fun r' => r'.id = id) = some r →
      (UpdateStudentByID s id st).1 = .ok ⟨id, st.name, st.email, st.age⟩) := by
  refine ⟨fun h => ?_, rfl, fun r hr => updateStudentByID_found s id st r hr⟩
  have hmap : s.rows.map (updRow id st) = s.rows := by
    have : ∀ r ∈ s.rows, updRow id st r = r := by
      intro r hr
      simp [updRow, h r hr]
    rw [List.map_congr_left this, List.map_id']
  constructor
  · show s.rows.map (updRow id st) = s.rows
    exact hmap
  · show GetStudentByID ⟨s.rows.map (updRow id st), s.nextId⟩ id = _
    rw [GetStudentByID, hmap, find?_none_of_no_id s.rows id h]

/-- Witness for C2: updating id 5 in a store holding only id 1. -/
theorem update_nonexistent_errors_and_rereads_witness :
    (UpdateStudentByID ⟨[⟨1, "a", "a@b.com", 2⟩], 2⟩ 5 ⟨0, "x", "y", 3⟩).2.rows
        = [⟨1, "a", "a@b.com", 2⟩] ∧
    (UpdateStudentByID ⟨[⟨1, "a", "a@b.com", 2⟩], 2⟩ 5 ⟨0, "x", "y", 3⟩).1
        = .error (noStudentMsg 5) :=
  (update_nonexistent_errors_and_rereads ⟨[⟨1, "a", "a@b.com", 2⟩], 2⟩ 5
    ⟨0, "x", "y", 3⟩).1 (by decide)

/-- C3: a successful update of a stored id `i` with a valid payload replaces
name/email/age entirely, keeps the id equal to `i`, leaves every record
with another id unchanged (in both directions of membership, with the row
count preserved), and a subsequent `GetStudentByID i` — and the `Update`
handler's 200 response — carry exactly the updated values. -/
theorem update_replaces_all_fields_and_frames (s : Store) (i : Int)
    (st : Student) (hn : st.name ≠ "") (he : st.email ≠ "") (ha : st.age ≠ 0)
    (hmem : ∃ r ∈ s.rows, r.id = i) :
    (UpdateStudentByID s i st).1 = .ok ⟨i, st.name, st.email, st.age⟩ ∧
    GetStudentByID (UpdateStudentByID s i st).2 i
      = .ok ⟨i, st.name, st.email, st.age⟩ ∧
    (UpdateStudentByID s i st).2.rows.length = s.rows.length ∧
    (∀ r ∈ s.rows, r.id ≠ i → r ∈ (UpdateStudentByID s i st).2.rows) ∧
    (∀ r ∈ (UpdateStudentByID s i st).2.rows, r.id ≠ i → r ∈ s.rows) ∧
    (handleUpdate s i (.decoded st)).1
      = ⟨200, encodeStudent ⟨i, st.name, st.email, st.age⟩⟩ := by
  have hsome : ∃ r, s.rows.find? (fun r' => r'.id = i) = some r := by
    rw [← Option.isSome_iff_exists, List.find?_isSome]
    obtain ⟨r, hr, hid⟩ := hmem
    exact ⟨r, hr, by simpa using hid⟩
  obtain ⟨r, hr⟩ := hsome
  have hfound := updateStudentByID_found s i st r hr
  have hrows : (UpdateStudentByID s i st).2.rows = s.rows.map (updRow i st) :=
    rfl
  refine ⟨hfound, hfound, ?_, ?_, ?_, ?_⟩
  · rw [hrows, List.length_map]
  · intro r₀ hr₀ hid
    rw [hrows]
    have : updRow i st r₀ = r₀ := by simp [updRow, hid]
    exact this ▸ List.mem_map_of_mem (updRow i st) hr₀
  · intro r₀ hr₀ hid
    rw [hrows] at hr₀
    obtain ⟨r₁, hr₁, hmap⟩ := List.mem_map.mp hr₀
    by_cases h₁ : r₁.id = i
    · exfalso
      apply hid
      rw [← hmap, updRow_id, h₁]
    · have heq : updRow i st r₁ = r₁ := by simp [updRow, h₁]
      rw [heq] at hmap
      exact hmap ▸ hr₁
  · have hff : failingFields st = [] := by simp [failingFields, hn, he, ha]
    have hupd : UpdateStudentByID s i st
        = (Except.ok ⟨i, st.name, st.email, st.age⟩,
           (UpdateStudentByID s i st).2) :=
      Prod.ext hfound rfl
    simp only [handleUpdate]
    rw [hupd]
    simp [hff]

/-- Witness for C3: overwriting the single stored record. -/
theorem update_replaces_all_fields_and_frames_witness :
    (UpdateStudentByID ⟨[⟨1, "Rakesh", "rakesh@test.com", 35⟩], 2⟩ 1
        ⟨0, "Rakesh Kumar", "new@test.com", 36⟩).1
      = .ok ⟨1, "Rakesh Kumar", "new@test.com", 36⟩ :=
  (update_replaces_all_fields_and_frames
    ⟨[⟨1, "Rakesh", "rakesh@test.com", 35⟩], 2⟩ 1
    ⟨0, "Rakesh Kumar", "new@test.com", 36⟩
    (by decide) (by decide) (by decide)
    ⟨⟨1, "Rakesh", "rakesh@test.com", 35⟩, by decide, rfl⟩).1

/-- C4: `DeleteStudentByID` succeeds whether or not a row matches, deleting
twice gives the same final store as deleting once, a fetch of the deleted
id fails with the not-found error, and deleting an absent id leaves the
store unchanged. -/
theorem delete_is_idempotent_and_total (s : Store) (id : Int) :
    (DeleteStudentByID s id).1 = .ok () ∧
    (DeleteStudentByID (DeleteStudentByID s id).2 id).2
      = (DeleteStudentByID s id).2 ∧
    GetStudentByID (DeleteStudentByID s id).2 id
      = .error (noStudentMsg id) ∧
    ((∀ r ∈ s.rows, r.id ≠ id) → (DeleteStudentByID s id).2 = s) := by
  refine ⟨rfl, ?_, ?_, fun h => ?_⟩
  · show (⟨(s.rows.filter (fun r => r.id ≠ id)).filter (fun r => r.id ≠ id),
          s.nextId⟩ : Store) = _
    rw [List.filter_filter]
    congr 1
    apply List.filter_congr
    intro r _
    by_cases hid : r.id = id <;> simp [hid]
  · show GetStudentByID ⟨s.rows.filter (fun r => r.id ≠ id), s.nextId⟩ id = _
    rw [GetStudentByID, find?_none_of_no_id]
    intro r hr
    have := List.of_mem_filter hr
    simpa using this
  · show (⟨s.rows.filter (fun r => r.id ≠ id), s.nextId⟩ : Store) = s
    have : s.rows.filter (fun r => r.id ≠ id) = s.rows :=
      List.filter_eq_self.mpr (fun r hr => by simpa using h r hr)
    rw [this]

/-- Witness for C4: deleting the absent id 7 leaves the store as it was. -/
theorem delete_is_idempotent_and_total_witness :
    (DeleteStudentByID ⟨[⟨1, "a", "a@b.com", 2⟩], 2⟩ 7).2
      = ⟨[⟨1, "a", "a@b.com", 2⟩], 2⟩ :=
  (delete_is_idempotent_and_total ⟨[⟨1, "a", "a@b.com", 2⟩], 2⟩ 7).2.2.2
    (by decide)

/-- C5: Create and Update validate the decoded body with the same rule set —
a body passes exactly when name and email are non-empty and age is
non-zero; any body that fails gets the same 400 response with the
validation message from both handlers; and a body whose only zero value is
`age = 0` is rejected 400 with the message naming the `Age` field, because
`required` treats numeric zero as absent. -/
theorem validation_shared_and_age_zero_rejected (s : Store) (i cid : Int)
    (n e : String) :
    (∀ st : Student,
      failingFields st = [] ↔ st.name ≠ "" ∧ st.email ≠ "" ∧ st.age ≠ 0) ∧
    (∀ st : Student, failingFields st ≠ [] →
      (handleNew s (.decoded st)).1
          = ⟨400, errorEnvelope (validationMessage (failingFields st))⟩ ∧
      (handleUpdate s i (.decoded st)).1
          = ⟨400, errorEnvelope (validationMessage (failingFields st))⟩) ∧
    (n ≠ "" → e ≠ "" →
      (handleNew s (.decoded ⟨cid, n, e, 0⟩)).1
          = ⟨400, errorEnvelope "field Age is required"⟩ ∧
      (handleUpdate s i (.decoded ⟨cid, n, e, 0⟩)).1
          = ⟨400, errorEnvelope "field Age is required"⟩) := by
  refine ⟨?_, ?_, ?_⟩
  · intro st
    by_cases h1 : st.name = "" <;> by_cases h2 : st.email = "" <;>
      by_cases h3 : st.age = 0 <;> simp [failingFields, h1, h2, h3]
  · intro st hst
    constructor <;> simp [handleNew, handleUpdate, hst]
  · intro hn he
    have hff : failingFields ⟨cid, n, e, 0⟩ = ["Age"] := by
      simp [failingFields, hn, he]
    have hmsg : validationMessage ["Age"] = "field Age is required" := rfl
    constructor <;> simp [handleNew, handleUpdate, hff, hmsg]

/-- Witness for C5: a body with name and email set but age 0 is rejected by
the Create handler with the Age message. -/
theorem validation_shared_and_age_zero_rejected_witness :
    (handleNew emptyStore (.decoded ⟨0, "Rakesh", "rakesh@test.com", 0⟩)).1
      = ⟨400, errorEnvelope "field Age is required"⟩ :=
  ((validation_shared_and_age_zero_rejected emptyStore 1 0
    "Rakesh" "rakesh@test.com").2.2 (by decide) (by decide)).1

/-- C6: with no stored records, `GetStudents` returns the non-nil empty
slice, which encodes to the JSON array `[]` and never to `null`, and the
`GetList` handler responds 200 with that array. -/
theorem list_empty_returns_empty_array (s : Store) (h : s.rows = []) :
    GetStudents s = some [] ∧
    handleGetList s = ⟨200, Json.arr []⟩ ∧
    (handleGetList s).body ≠ Json.null := by
  refine ⟨?_, ?_, ?_⟩ <;>
    simp [GetStudents, handleGetList, encodeStudentSlice, h]

/-- Witness for C6: the empty store. -/
theorem list_empty_returns_empty_array_witness :
    handleGetList emptyStore = ⟨200, Json.arr []⟩ :=
  (list_empty_returns_empty_array emptyStore rfl).2.1

/-- C7: for an id with no matching record, the Get-by-id handler responds
with HTTP 500 — not 404 — and the envelope carries the underlying
not-found message, the same status and channel as genuine storage
failures. -/
theorem getById_missing_responds_500 (s : Store) (id : Int)
    (h : ∀ r ∈ s.rows, r.id ≠ id) :
    handleGetByID s id = ⟨500, errorEnvelope (noStudentMsg id)⟩ ∧
    (handleGetByID s id).status = 500 ∧
    (handleGetByID s id).status ≠ 404 := by
  have hnone : s.rows.find? (fun r => r.id = id) = none :=
    find?_none_of_no_id s.rows id h
  refine ⟨?_, ?_, ?_⟩ <;> simp [handleGetByID, GetStudentByID, hnone]

/-- Witness for C7: fetching id 1 from the empty store. -/
theorem getById_missing_responds_500_witness :
    handleGetByID emptyStore 1 = ⟨500, errorEnvelope (noStudentMsg 1)⟩ :=
  (getById_missing_responds_500 emptyStore 1 (by decide)).1

/-- The not-found message starts with an 'n'. -/
theorem noStudentMsg_head (id : Int) :
    (noStudentMsg id).data.head? = some 'n' := by
  rw [noStudentMsg, String.data_append]
  rfl

/-- C8: when zero rows match, `GetStudentByID` fails with the distinct
"no student found" error; that message differs from the message of every
other storage error the function can produce (prepare and scan faults,
whatever the driver detail), so the caller could in principle map it to a
404; and the fault-free run of the driver-explicit model agrees with
`GetStudentByID`. -/
theorem getById_notfound_error_distinct (s : Store) (id : Int) (e : String)
    (h : ∀ r ∈ s.rows, r.id ≠ id) :
    GetStudentByIDFull s id none none = .error (noStudentMsg id) ∧
    GetStudentByIDFull s id none none = GetStudentByID s id ∧
    noStudentMsg id ≠ "GetStudentByID: prepare: " ++ e ∧
    noStudentMsg id ≠ "GetStudentByID: scan: " ++ e ∧
    GetStudentByIDFull s id (some e) none
      = .error ("GetStudentByID: prepare: " ++ e) ∧
    GetStudentByIDFull s id none (some e)
      = .error ("GetStudentByID: scan: " ++ e) := by
  refine ⟨?_, rfl, ?_, ?_, rfl, rfl⟩
  · simp [GetStudentByIDFull, GetStudentByID, find?_none_of_no_id s.rows id h]
  · intro hc
    have hL := noStudentMsg_head id
    have hR : ("GetStudentByID: prepare: " ++ e).data.head? = some 'G' := by
      rw [String.data_append]
      rfl
    rw [hc, hR] at hL
    exact absurd hL (by decide)
  · intro hc
    have hL := noStudentMsg_head id
    have hR : ("GetStudentByID: scan: " ++ e).data.head? = some 'G' := by
      rw [String.data_append]
      rfl
    rw [hc, hR] at hL
    exact absurd hL (by decide)

/-- Witness for C8: id 1 against the empty store. -/
theorem getById_notfound_error_distinct_witness :
    GetStudentByIDFull emptyStore 1 none none = .error (noStudentMsg 1) :=
  (getById_notfound_error_distinct emptyStore 1 "driver detail"
    (by decide)).1

/-- C9: whenever the Create or Update handler answers 400 (empty body,
malformed JSON, or failed validation), the store after the request equals
the store before it — no persistence operation took effect. -/
theorem bad_request_leaves_store_unchanged (s : Store) (id : Int)
    (body : RequestBody) :
    ((handleNew s body).1.status = 400 → (handleNew s body).2 = s) ∧
    ((handleUpdate s id body).1.status = 400 → (handleUpdate s id body).2 = s)
    := by
  cases body with
  | empty => exact ⟨fun _ => rfl, fun _ => rfl⟩
  | malformed m => exact ⟨fun _ => rfl, fun _ => rfl⟩
  | decoded st =>
    by_cases hff : failingFields st = []
    · constructor
      · intro h400
        exfalso
        simp [handleNew, hff] at h400
      · intro h400
        exfalso
        have hupd : UpdateStudentByID s id st
            = ((UpdateStudentByID s id st).1, (UpdateStudentByID s id st).2) :=
          Prod.mk.eta.symm
        have hne : (handleUpdate s id (.decoded st)).1.status ≠ 400 := by
          simp only [handleUpdate]
          rw [hupd]
          rcases (UpdateStudentByID s id st).1 with msg | u <;> simp [hff]
        exact hne h400
    · constructor <;> intro _ <;> simp [handleNew, handleUpdate, hff]

/-- Witness for C9: a validation failure (age 0) leaves the empty store
empty. -/
theorem bad_request_leaves_store_unchanged_witness :
    (handleNew emptyStore
        (.decoded ⟨0, "Rakesh", "rakesh@test.com", 0⟩)).2 = emptyStore :=
  (bad_request_leaves_store_unchanged emptyStore 1
    (.decoded ⟨0, "Rakesh", "rakesh@test.com", 0⟩)).1 (by rfl)

/-- C10: an `id` supplied in the Create body is ignored — any two bodies
differing only in the id field produce identical responses and stores, the
201 response carries the store-assigned id `s.nextId`, and the stored row
carries the store-assigned id with the body's name/email/age. -/
theorem create_ignores_client_id (s : Store) (cid cid' : Int) (n e : String)
    (a : Int) (hn : n ≠ "") (he : e ≠ "") (ha : a ≠ 0) :
    handleNew s (.decoded ⟨cid, n, e, a⟩)
      = handleNew s (.decoded ⟨cid', n, e, a⟩) ∧
    (handleNew s (.decoded ⟨cid, n, e, a⟩)).1
      = ⟨201, .obj [("id", .num s.nextId)]⟩ ∧
    (handleNew s (.decoded ⟨cid, n, e, a⟩)).2.rows
      = s.rows ++ [⟨s.nextId, n, e, a⟩] := by
  have hff : ∀ c : Int, failingFields ⟨c, n, e, a⟩ = [] := fun c => by
    simp [failingFields, hn, he, ha]
  refine ⟨?_, ?_, ?_⟩ <;> simp [handleNew, CreateStudent, hff]

/-- Witness for C10: a client-supplied id 999 on the empty store still
yields the store-assigned id 1. -/
theorem create_ignores_client_id_witness :
    (handleNew emptyStore
        (.decoded ⟨999, "Rakesh", "rakesh@test.com", 35⟩)).1
      = ⟨201, .obj [("id", .num 1)]⟩ :=
  (create_ignores_client_id emptyStore 999 0 "Rakesh" "rakesh@test.com" 35
    (by decide) (by decide) (by decide)).2.1

end StudentsApi
